import Mathlib

/-!
Shallow embedding of the order lifecycle, pricing and payment-reconciliation
logic of a food-delivery backend (order model, order routes, payment routes),
together with theorems checking the specification's claims against it.

Money is modelled as exact rationals (the source stores decimal currency
amounts in JS numbers); timestamps are abstract naturals passed in
explicitly where the source calls `Date.now()`.
-/

namespace FoodDelivery

/-- Order status enum of the order schema. -/
inductive OrderStatus
  | pending
  | confirmed
  | preparing
  | ready_for_pickup
  | out_for_delivery
  | delivered
  | cancelled
  | refunded
deriving DecidableEq, Repr

/-- Payment status enum of the order schema. -/
inductive PaymentStatus
  | pending
  | processing
  | completed
  | failed
  | refunded
deriving DecidableEq, Repr

/-- Payment method enum of the order schema. -/
inductive PaymentMethod
  | card
  | cash
  | paypal
  | wallet
deriving DecidableEq, Repr

/-- `orderType` enum of the order schema. -/
inductive OrderType
  | delivery
  | pickup
deriving DecidableEq, Repr

/-- User roles supplied by the identity layer (`req.user.role`). -/
inductive Role
  | customer
  | restaurant_owner
  | delivery_driver
  | admin
deriving DecidableEq, Repr

/-- The literal role string the middleware puts in `req.user.role`. -/
def roleString : Role → String
  | .customer => "customer"
  | .restaurant_owner => "restaurant_owner"
  | .delivery_driver => "delivery_driver"
  | .admin => "admin"

/-- The authenticated request user (`req.user`). -/
structure UserCtx where
  id : Nat
  role : Role
deriving DecidableEq, Repr

/-! ## Catalog snapshot (menu collaborator) -/

/-- A customization option on a menu item (`{name, price}`). -/
structure MenuOption where
  name : String
  price : ℚ
deriving DecidableEq, Repr

/-- A customization group on a menu item. -/
structure MenuCustomization where
  name : String
  options : List MenuOption
deriving DecidableEq, Repr

/-- A size on a menu item (`{name, price}`; size price replaces base price). -/
structure MenuSize where
  name : String
  price : ℚ
deriving DecidableEq, Repr

/-- A catalog menu item as read by the order-creation handler. -/
structure MenuItem where
  id : Nat
  name : String
  description : Option String := none
  image : Option String := none
  price : ℚ
  isAvailable : Bool
  sizes : List MenuSize := []
  customizations : List MenuCustomization := []
deriving DecidableEq, Repr

/-! ## Order-creation request shape -/

/-- A requested customization option (`{name}`) inside a request line. -/
structure ReqOption where
  name : String
deriving DecidableEq, Repr

/-- A requested customization group inside a request line. -/
structure ReqCustomization where
  name : String
  options : List ReqOption
deriving DecidableEq, Repr

/-- One line of the order-creation request body (`items[i]`). -/
structure ReqLine where
  menuItem : Nat
  quantity : Nat
  size : Option String := none
  customizations : List ReqCustomization := []
  specialInstructions : Option String := none
deriving DecidableEq, Repr

/-! ## Line pricing (order-creation handler, per-item loop) -/

/-- Price contribution of one requested option inside a found customization
group: the option's price when its name is found, nothing otherwise. -/
def optionPrice (mc : MenuCustomization) (o : ReqOption) : ℚ :=
  match mc.options.find? (fun mo => mo.name == o.name) with
  | some mo => mo.price
  | none => 0

/-- Price contribution of one requested customization group: the sum of its
options' contributions when the group name is found on the item, nothing
otherwise. -/
def groupTotal (mi : MenuItem) (c : ReqCustomization) : ℚ :=
  match mi.customizations.find? (fun mc => mc.name == c.name) with
  | some mc => (c.options.map (optionPrice mc)).sum
  | none => 0

/-- Sum of the prices of the requested customization options, following the
handler's nested `find` loops: a customization group or option name that does
not exist on the menu item contributes nothing. -/
def customizationTotal (mi : MenuItem) (reqCs : List ReqCustomization) : ℚ :=
  (reqCs.map (groupTotal mi)).sum

/-- Unit price resolution: the size-specific price replaces the base price
when a size is requested, the item has sizes, and the size name is found;
otherwise the base price is kept. -/
def resolveItemPrice (mi : MenuItem) (size : Option String) : ℚ :=
  match size with
  | some sname =>
      if mi.sizes.length > 0 then
        match mi.sizes.find? (fun s => s.name == sname) with
        | some s => s.price
        | none => mi.price
      else mi.price
  | none => mi.price

/-- An order line as stored on the order (`orderItems.push({...})`). -/
structure OrderItem where
  menuItem : Nat
  name : String
  description : Option String := none
  image : Option String := none
  price : ℚ
  quantity : Nat
  size : Option String := none
  customizations : List ReqCustomization := []
  specialInstructions : Option String := none
  subtotal : ℚ
deriving DecidableEq, Repr

/-- Errors the order-creation handler can answer with. -/
inductive CreateOrderError
  | validationFailed
  | restaurantNotFoundOrInactive
  | menuNotAvailable
  | itemUnavailable (menuItemId : Nat)
deriving DecidableEq, Repr

/-- Price one request line against the menu: fails when the item is absent
or unavailable, otherwise returns the stored order line. -/
def priceLine (menuItems : List MenuItem) (l : ReqLine) :
    Except CreateOrderError OrderItem :=
  match menuItems.find? (fun mi => mi.id == l.menuItem) with
  | none => .error (.itemUnavailable l.menuItem)
  | some mi =>
      if !mi.isAvailable then .error (.itemUnavailable l.menuItem)
      else
        let itemPrice := resolveItemPrice mi l.size
        let itemSubtotal := (itemPrice + customizationTotal mi l.customizations) * l.quantity
        .ok { menuItem := mi.id, name := mi.name, description := mi.description,
              image := mi.image, price := itemPrice, quantity := l.quantity,
              size := l.size, customizations := l.customizations,
              specialInstructions := l.specialInstructions, subtotal := itemSubtotal }

/-- Price all request lines, left to right, failing on the first bad line. -/
def priceLines (menuItems : List MenuItem) :
    List ReqLine → Except CreateOrderError (List OrderItem)
  | [] => .ok []
  | l :: ls => do
      let item ← priceLine menuItems l
      let items ← priceLines menuItems ls
      .ok (item :: items)

/-! ## Order aggregate state -/

/-- The `pricing` sub-document of an order. -/
structure Pricing where
  subtotal : ℚ
  tax : ℚ
  deliveryFee : ℚ := 0
  serviceFee : ℚ := 0
  discount : ℚ := 0
  tip : ℚ := 0
  total : ℚ
deriving DecidableEq, Repr

/-- The `payment` sub-document of an order. -/
structure Payment where
  method : PaymentMethod
  status : PaymentStatus := .pending
  transactionId : Option String := none
  stripePaymentIntentId : Option String := none
  paidAt : Option Nat := none
  refundedAt : Option Nat := none
  refundAmount : Option ℚ := none
deriving DecidableEq, Repr

/-- `tracking.orderConfirmed`. -/
structure ConfirmedInfo where
  timestamp : Nat
  estimatedTime : Nat
deriving DecidableEq, Repr

/-- `tracking.preparationStarted`. -/
structure PreparationInfo where
  timestamp : Nat
  estimatedTime : Nat
deriving DecidableEq, Repr

/-- `tracking.outForDelivery`. -/
structure OutForDeliveryInfo where
  timestamp : Nat
  estimatedArrival : Nat
deriving DecidableEq, Repr

/-- `tracking.delivered`. -/
structure DeliveredInfo where
  timestamp : Nat
  deliveredBy : Option String := none
  signature : Option String := none
  photo : Option String := none
deriving DecidableEq, Repr

/-- `tracking.cancelled`. -/
structure CancelledInfo where
  timestamp : Nat
  reason : Option String := none
  cancelledBy : Option String := none
deriving DecidableEq, Repr

/-- The `tracking` sub-document of an order. -/
structure Tracking where
  orderPlaced : Nat
  orderConfirmed : Option ConfirmedInfo := none
  preparationStarted : Option PreparationInfo := none
  readyForPickup : Option Nat := none
  pickedUp : Option Nat := none
  outForDelivery : Option OutForDeliveryInfo := none
  delivered : Option DeliveredInfo := none
  cancelled : Option CancelledInfo := none
deriving DecidableEq, Repr

/-- The schema enum for `tracking.cancelled.cancelledBy`: a persisted value
must be one of these strings or validation fails on save. -/
def validCancelledBy (s : String) : Bool :=
  s == "customer" || s == "restaurant" || s == "admin" || s == "system"

/-- An order document as the route handlers see it, with the referenced
restaurant's owner and driver already resolved (`populate`). -/
structure OrderState where
  customer : Nat
  restaurantOwner : Nat
  deliveryDriver : Option Nat := none
  items : List OrderItem
  orderType : OrderType
  status : OrderStatus := .pending
  deliveryAddress : Option String := none
  estimatedDeliveryTime : Option Nat := none
  actualDeliveryTime : Option Nat := none
  pricing : Pricing
  payment : Payment
  tracking : Tracking
deriving DecidableEq, Repr

/-- JavaScript `x || d` for an optional numeric field: `0` is falsy. -/
def jsOrNat (x : Option Nat) (d : Nat) : Nat :=
  match x with
  | some t => if t = 0 then d else t
  | none => d

/-- The `additionalData` argument of `updateStatus`. -/
structure AdditionalData where
  estimatedTime : Option Nat := none
  estimatedArrival : Option Nat := none
  deliveredBy : Option String := none
  signature : Option String := none
  photo : Option String := none
  reason : Option String := none
  cancelledBy : Option String := none
deriving DecidableEq, Repr

/-- `orderSchema.methods.updateStatus`: sets the status field, then stamps
the tracking sub-record matched by the switch; statuses without a case
(`pending`, `refunded`) only get the status write. -/
def updateStatus (o : OrderState) (newStatus : OrderStatus)
    (ad : AdditionalData) (now : Nat) : OrderState :=
  let o := { o with status := newStatus }
  match newStatus with
  | .confirmed =>
      let o := { o with tracking := { o.tracking with
        orderConfirmed := some ⟨now, jsOrNat ad.estimatedTime 30⟩ } }
      match ad.estimatedTime with
      | some t => if t = 0 then o
          else { o with estimatedDeliveryTime := some (now + t * 60000) }
      | none => o
  | .preparing =>
      { o with tracking := { o.tracking with
        preparationStarted := some ⟨now, jsOrNat ad.estimatedTime 20⟩ } }
  | .ready_for_pickup =>
      { o with tracking := { o.tracking with readyForPickup := some now } }
  | .out_for_delivery =>
      { o with tracking := { o.tracking with
        outForDelivery := some ⟨now, jsOrNat ad.estimatedArrival (now + 20 * 60000)⟩ } }
  | .delivered =>
      { o with
        tracking := { o.tracking with
          delivered := some ⟨now, ad.deliveredBy, ad.signature, ad.photo⟩ },
        actualDeliveryTime := some now }
  | .cancelled =>
      { o with tracking := { o.tracking with
        cancelled := some ⟨now, ad.reason, ad.cancelledBy⟩ } }
  | _ => o

/-- `orderSchema.methods.calculateTotal`: recomputes subtotal and tax from
the stored items, then the total from the stored fees, tip and discount,
floored at 0. Returns the updated pricing sub-document. -/
def calculateTotal (o : OrderState) : Pricing :=
  let subtotal := (o.items.map (fun i => i.subtotal)).sum
  let tax := subtotal * (8 / 100)
  let total := subtotal + tax + o.pricing.deliveryFee + o.pricing.serviceFee
    + o.pricing.tip - o.pricing.discount
  { o.pricing with subtotal := subtotal, tax := tax, total := max total 0 }

/-- `canBeCancelled` virtual. -/
def canBeCancelled (o : OrderState) : Bool :=
  o.status == .pending || o.status == .confirmed

/-- JavaScript `x || d` for an optional string field: `""` is falsy. -/
def jsOrStr (x : Option String) (d : String) : String :=
  match x with
  | some s => if s = "" then d else s
  | none => d

/-! ## Order creation (POST /api/orders) -/

/-- The restaurant fields the order routes read. -/
structure RestaurantInfo where
  owner : Nat
  isActive : Bool
  deliveryFee : ℚ
  estimatedDeliveryTime : Nat
deriving DecidableEq, Repr

/-- The order-creation request body. -/
structure CreateOrderReq where
  items : List ReqLine
  orderType : OrderType
  deliveryAddress : Option String := none
  scheduledDeliveryTime : Option Nat := none
  tip : Option ℚ := none
  paymentMethod : PaymentMethod
deriving DecidableEq, Repr

/-- The order-creation handler: validator (`items` nonempty), restaurant
active check, menu lookup, per-line validation and pricing, then the pricing
block and the order document construction. -/
def createOrder (restaurant : Option RestaurantInfo)
    (menu : Option (List MenuItem)) (u : UserCtx) (req : CreateOrderReq)
    (now : Nat) : Except CreateOrderError OrderState :=
  if req.items.isEmpty then .error .validationFailed
  else
    match restaurant with
    | none => .error .restaurantNotFoundOrInactive
    | some r =>
      if !r.isActive then .error .restaurantNotFoundOrInactive
      else
        match menu with
        | none => .error .menuNotAvailable
        | some menuItems =>
          match priceLines menuItems req.items with
          | .error e => .error e
          | .ok orderItems =>
            let subtotal := (orderItems.map (fun i => i.subtotal)).sum
            let tax := subtotal * (8 / 100)
            let deliveryFee := if req.orderType = .delivery then r.deliveryFee else 0
            let serviceFee := subtotal * (2 / 100)
            let total := subtotal + tax + deliveryFee + serviceFee
            let tip := req.tip.getD 0
            .ok
              { customer := u.id
                restaurantOwner := r.owner
                items := orderItems
                orderType := req.orderType
                status := .pending
                deliveryAddress :=
                  if req.orderType = .delivery then req.deliveryAddress else none
                estimatedDeliveryTime :=
                  some (jsOrNat req.scheduledDeliveryTime
                    (now + r.estimatedDeliveryTime * 60000))
                pricing :=
                  { subtotal := subtotal, tax := tax, deliveryFee := deliveryFee,
                    serviceFee := serviceFee, discount := 0, tip := tip,
                    total := total + tip }
                payment := { method := req.paymentMethod, status := .pending }
                tracking := { orderPlaced := now } }

/-! ## Status update route (PUT /api/orders/:id/status) -/

/-- Outcome of the status-update route. -/
inductive StatusUpdateResult
  | validationFailed
  | notAuthorized
  | illegalTransition (src tgt : OrderStatus)
  | serverError
  | ok
deriving DecidableEq, Repr

/-- The route's authorization chain, keyed on the requested target status. -/
def statusUpdateAuthorized (o : OrderState) (u : UserCtx)
    (target : OrderStatus) : Bool :=
  if target == .confirmed || target == .preparing || target == .ready_for_pickup then
    o.restaurantOwner == u.id || u.role == .admin
  else if target == .out_for_delivery || target == .delivered then
    (match o.deliveryDriver with
     | some d => d == u.id
     | none => false) || u.role == .admin
  else if target == .cancelled then
    o.customer == u.id || o.restaurantOwner == u.id || u.role == .admin
  else false

/-- The route's `validTransitions` object: a JS object lookup that yields
`undefined` (here `none`) for a key the object does not define — which is
the case for `refunded`. -/
def validTransitions : OrderStatus → Option (List OrderStatus)
  | .pending => some [.confirmed, .cancelled]
  | .confirmed => some [.preparing, .cancelled]
  | .preparing => some [.ready_for_pickup, .cancelled]
  | .ready_for_pickup => some [.out_for_delivery, .delivered, .cancelled]
  | .out_for_delivery => some [.delivered, .cancelled]
  | .delivered => some []
  | .cancelled => some []
  | .refunded => none

/-- Optional request-body fields forwarded to `updateStatus`. -/
structure StatusUpdateBody where
  estimatedTime : Option Nat := none
  estimatedArrival : Option Nat := none
  deliveredBy : Option String := none
  signature : Option String := none
  photo : Option String := none
  reason : Option String := none
deriving DecidableEq, Repr

/-- The status-update route handler: target-status validator, then the
authorization chain, then the transition-table check, then `updateStatus`
with `cancelledBy` set to the requester's role string. Reading the
transition table at a `refunded` order throws in the source (`undefined`
has no `.includes`), answered by the catch-all 500. Returns the route
result paired with the order state persisted by the end of the request
(the handler returns before any write on every non-ok path). -/
def handleStatusUpdate (o : OrderState) (u : UserCtx) (target : OrderStatus)
    (body : StatusUpdateBody) (now : Nat) : StatusUpdateResult × OrderState :=
  if target == .refunded then (.validationFailed, o)
  else if !statusUpdateAuthorized o u target then (.notAuthorized, o)
  else
    match validTransitions o.status with
    | none => (.serverError, o)
    | some targets =>
        if targets.contains target then
          (.ok, updateStatus o target
            { estimatedTime := body.estimatedTime
              estimatedArrival := body.estimatedArrival
              deliveredBy := body.deliveredBy
              signature := body.signature
              photo := body.photo
              reason := body.reason
              cancelledBy := some (roleString u.role) } now)
        else (.illegalTransition o.status target, o)

/-! ## Cancel route (PUT /api/orders/:id/cancel) -/

/-- Outcome of the cancel route. -/
inductive CancelResult
  | notAuthorized
  | cannotBeCancelled
  | ok
deriving DecidableEq, Repr

/-- The cancel route handler: customer/owner/admin authorization, the
`canBeCancelled` virtual, then `updateStatus('cancelled', ...)` with
`cancelledBy` set to the requester's role string. Returns the route result
paired with the order state persisted by the end of the request. -/
def handleCancelOrder (o : OrderState) (u : UserCtx) (reason : Option String)
    (now : Nat) : CancelResult × OrderState :=
  if !(o.customer == u.id || o.restaurantOwner == u.id || u.role == .admin) then
    (.notAuthorized, o)
  else if !canBeCancelled o then (.cannotBeCancelled, o)
  else
    (.ok, updateStatus o .cancelled
      { reason := some (jsOrStr reason "No reason provided")
        cancelledBy := some (roleString u.role) } now)

/-! ## Payment routes (POST /api/payments/...)

Each handler is modelled as a function from the order as loaded plus the
outcome of the external gateway call (an `Except`, error meaning the call
threw) to the route result paired with the order state persisted by the end
of the request.  In the source every gateway call happens before any write
to the order, so a thrown gateway call reaches the catch block with the
order untouched. -/

/-- Gateway payment-intent status strings as the source matches on them. -/
inductive IntentStatus
  | succeeded
  | requires_action
  | payment_failed
  | other (s : String)
deriving DecidableEq, Repr

/-- Outcome of the create-intent route. -/
inductive CreateIntentResult
  | notAuthorized
  | orderNotPayable
  | alreadyPaid
  | gatewayError
  | ok (intentId : String) (amountCents : ℤ)
deriving DecidableEq, Repr

/-- The create-intent handler: ownership, `status = pending`, payment not
already completed, then the gateway call with `amount = round(total*100)`;
on success the intent id is recorded and `payment.status` set to
`processing`. -/
def createPaymentIntent (o : OrderState) (u : UserCtx)
    (gateway : Except Unit String) : CreateIntentResult × OrderState :=
  if o.customer != u.id then (.notAuthorized, o)
  else if o.status != .pending then (.orderNotPayable, o)
  else if o.payment.status == .completed then (.alreadyPaid, o)
  else
    let amount : ℤ := round (o.pricing.total * 100)
    match gateway with
    | .error _ => (.gatewayError, o)
    | .ok intentId =>
        (.ok intentId amount,
         { o with payment := { o.payment with
             stripePaymentIntentId := some intentId, status := .processing } })

/-- Outcome of the confirm-payment route. -/
inductive ConfirmResult
  | gatewayError
  | intentNotFound
  | orderNotFound
  | notAuthorized
  | ok (paymentStatus : PaymentStatus) (orderStatus : OrderStatus)
deriving DecidableEq, Repr

/-- The confirm-payment handler: retrieves the intent from the gateway,
finds the order by intent id, checks ownership, then maps the intent
status onto the payment sub-record; on `succeeded` it stamps `paidAt` and
the transaction id and calls `updateStatus('confirmed')` with no check of
the current order status. Returns the route result and the persisted order
(if one was found). -/
def confirmPayment (gateway : Except Unit (Option IntentStatus))
    (found : Option OrderState) (u : UserCtx) (intentId : String)
    (now : Nat) : ConfirmResult × Option OrderState :=
  match gateway with
  | .error _ => (.gatewayError, found)
  | .ok none => (.intentNotFound, found)
  | .ok (some st) =>
      match found with
      | none => (.orderNotFound, none)
      | some o =>
          if o.customer != u.id then (.notAuthorized, some o)
          else
            match st with
            | .succeeded =>
                let o := { o with payment := { o.payment with
                  status := .completed, paidAt := some now,
                  transactionId := some intentId } }
                let o := updateStatus o .confirmed {} now
                (.ok o.payment.status o.status, some o)
            | .requires_action =>
                let o := { o with payment := { o.payment with status := .processing } }
                (.ok o.payment.status o.status, some o)
            | .payment_failed =>
                let o := { o with payment := { o.payment with status := .failed } }
                (.ok o.payment.status o.status, some o)
            | .other _ => (.ok o.payment.status o.status, some o)

/-- The webhook `payment_intent.succeeded` case applied to the order found
by intent id: payment marked completed and, only when the order is still
`pending`, `updateStatus('confirmed')`; otherwise a plain save. -/
def applyPaymentSucceededEvent (o : OrderState) (intentId : String)
    (now : Nat) : OrderState :=
  let o := { o with payment := { o.payment with
    status := .completed, paidAt := some now, transactionId := some intentId } }
  if o.status = .pending then updateStatus o .confirmed {} now else o

/-- The webhook `payment_intent.payment_failed` case applied to the order
found by intent id. -/
def applyPaymentFailedEvent (o : OrderState) : OrderState :=
  { o with payment := { o.payment with status := .failed } }

/-- Outcome of the refund route. -/
inductive RefundResult
  | notAuthorized
  | paymentNotCompleted
  | noPaymentIntent
  | gatewayError
  | ok (refundId : String) (amountCents : ℤ)
deriving DecidableEq, Repr

/-- The refund amount in cents, following the source's
`amount ? Math.round(amount * 100) : Math.round(order.pricing.total * 100)`:
a missing amount — or a zero amount, which JavaScript treats as falsy —
falls back to the full `pricing.total`. -/
def refundCents (o : OrderState) (amount : Option ℚ) : ℤ :=
  match amount with
  | some a => if a = 0 then round (o.pricing.total * 100) else round (a * 100)
  | none => round (o.pricing.total * 100)

/-- The refund handler: customer/owner/admin authorization, payment must be
`completed` with a recorded intent id; refund amount is the caller's
(truthy) amount or else the full `pricing.total`, in cents; on gateway
success the payment sub-record is marked refunded and the order driven to
`refunded` via `updateStatus` with the reason and the requester's role
string. -/
def processRefund (o : OrderState) (u : UserCtx) (amount : Option ℚ)
    (reason : Option String) (gateway : Except Unit String)
    (now : Nat) : RefundResult × OrderState :=
  if !(o.customer == u.id || o.restaurantOwner == u.id || u.role == .admin) then
    (.notAuthorized, o)
  else if o.payment.status != .completed then (.paymentNotCompleted, o)
  else if o.payment.stripePaymentIntentId == none then (.noPaymentIntent, o)
  else
    let refundAmountCents : ℤ := refundCents o amount
    match gateway with
    | .error _ => (.gatewayError, o)
    | .ok refundId =>
        let o := { o with payment := { o.payment with
          status := .refunded, refundedAt := some now,
          refundAmount := some ((refundAmountCents : ℚ) / 100) } }
        let o := updateStatus o .refunded
          { reason := some (jsOrStr reason "Payment refunded")
            cancelledBy := some (roleString u.role) } now
        (.ok refundId refundAmountCents, o)

/-! ## Concrete fixtures -/

/-- A minimal available catalog item: $25, no sizes, no customizations. -/
def scenarioMenuItem : MenuItem :=
  { id := 1, name := "Meal", price := 25, isAvailable := true }

/-- An active restaurant with a $3 delivery fee. -/
def scenarioRestaurant : RestaurantInfo :=
  { owner := 20, isActive := true, deliveryFee := 3, estimatedDeliveryTime := 30 }

/-- Two units of the $25 item, delivery, $5 tip. -/
def scenarioReq : CreateOrderReq :=
  { items := [{ menuItem := 1, quantity := 2 }], orderType := .delivery,
    deliveryAddress := some "1 Main St", tip := some 5, paymentMethod := .card }

/-- Pricing of a successfully created order. -/
def createdPricing (e : Except CreateOrderError OrderState) : Option Pricing :=
  match e with
  | .ok o => some o.pricing
  | .error _ => none

/-- A sample order document: customer 10, owner 20, driver 30, the $63.00
pricing of the spec scenario, and a recorded payment intent. -/
def sampleOrder : OrderState :=
  { customer := 10, restaurantOwner := 20, deliveryDriver := some 30,
    items := [], orderType := .delivery, status := .pending,
    pricing := { subtotal := 50, tax := 4, deliveryFee := 3, serviceFee := 1,
                 discount := 0, tip := 5, total := 63 },
    payment := { method := .card, status := .pending,
                 stripePaymentIntentId := some "pi_1" },
    tracking := { orderPlaced := 1000 } }

/-! ## Pricing lemmas -/

/-- All prices appearing in a catalog snapshot are nonnegative. -/
def menuPricesNonneg (mis : List MenuItem) : Prop :=
  ∀ mi ∈ mis, 0 ≤ mi.price ∧ (∀ s ∈ mi.sizes, 0 ≤ s.price) ∧
    ∀ mc ∈ mi.customizations, ∀ mo ∈ mc.options, 0 ≤ mo.price

theorem optionPrice_nonneg (mc : MenuCustomization) (o : ReqOption)
    (h : ∀ mo ∈ mc.options, 0 ≤ mo.price) : 0 ≤ optionPrice mc o := by
  unfold optionPrice
  split
  · exact h _ (List.mem_of_find?_eq_some (by assumption))
  · exact le_refl 0

theorem groupTotal_nonneg (mi : MenuItem) (c : ReqCustomization)
    (h : ∀ mc ∈ mi.customizations, ∀ mo ∈ mc.options, 0 ≤ mo.price) :
    0 ≤ groupTotal mi c := by
  unfold groupTotal
  split
  · apply List.sum_nonneg
    intro x hx
    obtain ⟨o, _, rfl⟩ := List.mem_map.1 hx
    exact optionPrice_nonneg _ _ (h _ (List.mem_of_find?_eq_some (by assumption)))
  · exact le_refl 0

theorem customizationTotal_nonneg (mi : MenuItem) (cs : List ReqCustomization)
    (h : ∀ mc ∈ mi.customizations, ∀ mo ∈ mc.options, 0 ≤ mo.price) :
    0 ≤ customizationTotal mi cs := by
  unfold customizationTotal
  apply List.sum_nonneg
  intro x hx
  obtain ⟨c, _, rfl⟩ := List.mem_map.1 hx
  exact groupTotal_nonneg mi c h

theorem resolveItemPrice_nonneg (mi : MenuItem) (sz : Option String)
    (h1 : 0 ≤ mi.price) (h2 : ∀ s ∈ mi.sizes, 0 ≤ s.price) :
    0 ≤ resolveItemPrice mi sz := by
  unfold resolveItemPrice
  split
  · split
    · split
      · exact h2 _ (List.mem_of_find?_eq_some (by assumption))
      · exact h1
    · exact h1
  · exact h1

theorem priceLine_subtotal_nonneg (mis : List MenuItem) (l : ReqLine)
    (item : OrderItem) (hnn : menuPricesNonneg mis)
    (hok : priceLine mis l = .ok item) : 0 ≤ item.subtotal := by
  unfold priceLine at hok
  split at hok
  · exact absurd hok (by simp)
  · rename_i mi hfind
    split at hok
    · exact absurd hok (by simp)
    · obtain ⟨h1, h2, h3⟩ := hnn mi (List.mem_of_find?_eq_some hfind)
      simp only [Except.ok.injEq] at hok
      subst hok
      exact mul_nonneg
        (add_nonneg (resolveItemPrice_nonneg mi l.size h1 h2)
          (customizationTotal_nonneg mi l.customizations h3))
        (Nat.cast_nonneg _)

theorem priceLines_subtotal_nonneg (mis : List MenuItem)
    (hnn : menuPricesNonneg mis) :
    ∀ (ls : List ReqLine) (items : List OrderItem),
      priceLines mis ls = .ok items →
      0 ≤ (items.map (fun i => i.subtotal)).sum := by
  intro ls
  induction ls with
  | nil =>
      intro items hok
      simp only [priceLines, Except.ok.injEq] at hok
      subst hok
      simp
  | cons l ls ih =>
      intro items hok
      simp only [priceLines, bind, Except.bind] at hok
      split at hok
      · exact absurd hok (by simp)
      · rename_i item hline
        split at hok
        · exact absurd hok (by simp)
        · rename_i rest hrest
          simp only [Except.ok.injEq] at hok
          subst hok
          simp only [List.map_cons, List.sum_cons]
          exact add_nonneg (priceLine_subtotal_nonneg mis l item hnn hline)
            (ih rest hrest)

/-! ## Claim theorems -/

/-- C1: for every valid order creation, tax is exactly 8% of subtotal,
serviceFee exactly 2% of subtotal, deliveryFee is the restaurant's
configured fee for delivery orders and 0 otherwise, and
total = subtotal + tax + deliveryFee + serviceFee + tip − discount floored
at 0 (the floor is explicit in `calculateTotal` and holds at creation since
the creation-time discount is 0 and all components are nonnegative); the
$50.00/$5.00/$3.00 scenario yields tax $4.00, serviceFee $1.00,
total $63.00. -/
theorem c1_pricing_invariants
    (r : RestaurantInfo) (menuItems : List MenuItem) (u : UserCtx)
    (req : CreateOrderReq) (now : Nat) (o : OrderState)
    (hok : createOrder (some r) (some menuItems) u req now = .ok o)
    (hnn : menuPricesNonneg menuItems)
    (htip : 0 ≤ req.tip.getD 0) (hfee : 0 ≤ r.deliveryFee) :
    (o.pricing.tax = o.pricing.subtotal * (8 / 100) ∧
     o.pricing.serviceFee = o.pricing.subtotal * (2 / 100) ∧
     o.pricing.deliveryFee = (if req.orderType = .delivery then r.deliveryFee else 0) ∧
     o.pricing.discount = 0 ∧
     o.pricing.total = max (o.pricing.subtotal + o.pricing.tax + o.pricing.deliveryFee
       + o.pricing.serviceFee + o.pricing.tip - o.pricing.discount) 0) ∧
    (∀ o' : OrderState, (calculateTotal o').total
       = max ((calculateTotal o').subtotal + (calculateTotal o').tax
         + (calculateTotal o').deliveryFee + (calculateTotal o').serviceFee
         + (calculateTotal o').tip - (calculateTotal o').discount) 0) ∧
    createdPricing (createOrder (some scenarioRestaurant) (some [scenarioMenuItem])
        ⟨10, .customer⟩ scenarioReq 1000)
      = some { subtotal := 50, tax := 4, deliveryFee := 3, serviceFee := 1,
               discount := 0, tip := 5, total := 63 } := by
  refine ⟨?_, ?_, ?_⟩
  · simp only [createOrder] at hok
    split at hok
    · exact Except.noConfusion hok
    split at hok
    · exact Except.noConfusion hok
    split at hok
    · exact Except.noConfusion hok
    rename_i orderItems hitems
    simp only [Except.ok.injEq] at hok
    subst hok
    have hs : 0 ≤ (orderItems.map (fun i => i.subtotal)).sum :=
      priceLines_subtotal_nonneg menuItems hnn req.items orderItems hitems
    refine ⟨rfl, rfl, rfl, rfl, ?_⟩
    have h0 : (0 : ℚ) ≤ (orderItems.map (fun i => i.subtotal)).sum
        + (orderItems.map (fun i => i.subtotal)).sum * (8 / 100)
        + (if req.orderType = .delivery then r.deliveryFee else 0)
        + (orderItems.map (fun i => i.subtotal)).sum * (2 / 100)
        + req.tip.getD 0 := by
      have hdf : 0 ≤ (if req.orderType = .delivery then r.deliveryFee else 0) := by
        split
        · exact hfee
        · exact le_refl 0
      have h8 : (0 : ℚ) ≤ (orderItems.map (fun i => i.subtotal)).sum * (8 / 100) :=
        mul_nonneg hs (by norm_num)
      have h2 : (0 : ℚ) ≤ (orderItems.map (fun i => i.subtotal)).sum * (2 / 100) :=
        mul_nonneg hs (by norm_num)
      linarith
    simp only [sub_zero, max_eq_left h0]
  · intro o'
    simp [calculateTotal]
  · simp only [createOrder, scenarioReq, scenarioRestaurant, scenarioMenuItem,
      priceLines, priceLine, resolveItemPrice, customizationTotal, createdPricing,
      bind, Except.bind, pure, Except.pure, jsOrNat, List.map_cons, List.map_nil,
      List.sum_cons, List.sum_nil]
    norm_num

/-- Witness for C1 at the concrete scenario input. -/
theorem c1_pricing_invariants_witness :
    ∃ o, createOrder (some scenarioRestaurant) (some [scenarioMenuItem])
        ⟨10, .customer⟩ scenarioReq 1000 = .ok o ∧
      o.pricing.tax = o.pricing.subtotal * (8 / 100) := by
  have hok : ∃ o, createOrder (some scenarioRestaurant) (some [scenarioMenuItem])
      ⟨10, .customer⟩ scenarioReq 1000 = .ok o := by
    simp only [createOrder, scenarioReq, scenarioRestaurant, scenarioMenuItem,
      priceLines, priceLine, resolveItemPrice, customizationTotal,
      bind, Except.bind, pure, Except.pure, jsOrNat, List.map_cons, List.map_nil,
      List.sum_cons, List.sum_nil]
    norm_num
  obtain ⟨o, hok⟩ := hok
  refine ⟨o, hok, ?_⟩
  have h := c1_pricing_invariants scenarioRestaurant [scenarioMenuItem]
    ⟨10, .customer⟩ scenarioReq 1000 o hok
    (by
      intro mi hmi
      simp only [List.mem_singleton] at hmi
      subst hmi
      refine ⟨by norm_num [scenarioMenuItem], ?_, ?_⟩
      · intro s hs
        simp [scenarioMenuItem] at hs
      · intro mc hmc
        simp [scenarioMenuItem] at hmc)
    (by norm_num [scenarioReq]) (by norm_num [scenarioRestaurant])
  exact h.1.1

/-- A catalog item with one size and one customization option, used to
probe selection handling. -/
def c8MenuItem : MenuItem :=
  { id := 2, name := "Pizza", price := 10, isAvailable := true,
    sizes := [{ name := "large", price := 15 }],
    customizations := [{ name := "Toppings", options := [{ name := "cheese", price := 2 }] }] }

/-- C8 counterexample: a requested size name (`"mega"`) that does not exist
on the item does not fail with any error — the line is silently priced at
the base price, contradicting the claimed `InvalidSelection` failure. -/
theorem c8_counterexample :
    priceLine [c8MenuItem]
        { menuItem := 2, quantity := 1, size := some "mega" }
      = .ok { menuItem := 2, name := "Pizza", price := 10, quantity := 1,
              size := some "mega", subtotal := 10 } := by
  simp only [priceLine, c8MenuItem, resolveItemPrice, customizationTotal,
    List.find?, List.map_nil, List.sum_nil]
  norm_num
  simp

/-- C8 amended: an order-creation line fails with `ItemUnavailable` when the
requested catalog item is absent or unavailable, but a referenced size,
customization group or customization option that does not exist on the item
is silently ignored — the line is priced at the base price, respectively
without the missing delta — rather than failing with `InvalidSelection`. -/
theorem c8_selection_handling :
    (∀ (mis : List MenuItem) (l : ReqLine),
      mis.find? (fun mi => mi.id == l.menuItem) = none →
      priceLine mis l = .error (.itemUnavailable l.menuItem)) ∧
    (∀ (mis : List MenuItem) (l : ReqLine) (mi : MenuItem),
      mis.find? (fun mi => mi.id == l.menuItem) = some mi →
      mi.isAvailable = false →
      priceLine mis l = .error (.itemUnavailable l.menuItem)) ∧
    (∀ (mi : MenuItem) (sname : String),
      mi.sizes.find? (fun s => s.name == sname) = none →
      resolveItemPrice mi (some sname) = mi.price) ∧
    (∀ (mi : MenuItem) (c : ReqCustomization),
      mi.customizations.find? (fun mc => mc.name == c.name) = none →
      groupTotal mi c = 0) ∧
    (∀ (mc : MenuCustomization) (o : ReqOption),
      mc.options.find? (fun mo => mo.name == o.name) = none →
      optionPrice mc o = 0) := by
  refine ⟨?_, ?_, ?_, ?_, ?_⟩
  · intro mis l h
    simp only [priceLine, h]
  · intro mis l mi h hav
    simp only [priceLine, h, hav]
    norm_num
  · intro mi sname h
    simp only [resolveItemPrice, h]
    split <;> rfl
  · intro mi c h
    simp only [groupTotal, h]
  · intro mc o h
    simp only [optionPrice, h]

/-- Witness for the amended C8 at concrete inputs. -/
theorem c8_selection_handling_witness :
    priceLine [c8MenuItem] { menuItem := 99, quantity := 1 }
        = .error (.itemUnavailable 99) ∧
      resolveItemPrice c8MenuItem (some "mega") = c8MenuItem.price ∧
      groupTotal c8MenuItem { name := "Extras", options := [{ name := "cheese" }] } = 0 ∧
      optionPrice { name := "Toppings", options := [{ name := "cheese", price := 2 }] }
        { name := "bacon" } = 0 :=
  ⟨c8_selection_handling.1 [c8MenuItem] { menuItem := 99, quantity := 1 } rfl,
   c8_selection_handling.2.2.1 c8MenuItem "mega" rfl,
   c8_selection_handling.2.2.2.1 c8MenuItem
     { name := "Extras", options := [{ name := "cheese" }] } rfl,
   c8_selection_handling.2.2.2.2
     { name := "Toppings", options := [{ name := "cheese", price := 2 }] }
     { name := "bacon" } rfl⟩

/-- The scenario request with the delivery address removed. -/
def c9Req : CreateOrderReq :=
  { items := [{ menuItem := 1, quantity := 2 }], orderType := .delivery,
    deliveryAddress := none, tip := some 5, paymentMethod := .card }

/-- C9 counterexample: an `orderType = delivery` creation request with no
delivery address succeeds (no validator requires one) and the created
order stores no address — contradicting the claim that creation fails. -/
theorem c9_counterexample :
    ((createOrder (some scenarioRestaurant) (some [scenarioMenuItem])
        ⟨10, .customer⟩ c9Req 1000).toOption.map (fun o => o.deliveryAddress))
      = some none := by
  simp only [createOrder, c9Req, scenarioRestaurant, scenarioMenuItem,
    priceLines, priceLine, resolveItemPrice, customizationTotal,
    bind, Except.bind, jsOrNat, List.map_cons, List.map_nil,
    List.sum_cons, List.sum_nil]
  norm_num [Except.toOption]

/-- C9 amended: order creation never requires a delivery address — whether
creation succeeds is independent of the supplied address — and the stored
address is the supplied one for `delivery` orders and `none` (any supplied
address is ignored) for `pickup` orders. -/
theorem c9_address_handling :
    (∀ (restaurant : Option RestaurantInfo) (menu : Option (List MenuItem))
        (u : UserCtx) (req : CreateOrderReq) (now : Nat) (o : OrderState),
      createOrder restaurant menu u req now = .ok o →
      o.deliveryAddress = (if req.orderType = .delivery then req.deliveryAddress else none)) ∧
    (∀ (restaurant : Option RestaurantInfo) (menu : Option (List MenuItem))
        (u : UserCtx) (req : CreateOrderReq) (now : Nat) (a1 a2 : Option String),
      (createOrder restaurant menu u { req with deliveryAddress := a1 } now).toOption.isSome
        = (createOrder restaurant menu u { req with deliveryAddress := a2 } now).toOption.isSome) := by
  constructor
  · intro restaurant menu u req now o hok
    simp only [createOrder] at hok
    split at hok
    · exact Except.noConfusion hok
    split at hok
    · exact Except.noConfusion hok
    split at hok
    · exact Except.noConfusion hok
    split at hok
    · exact Except.noConfusion hok
    split at hok
    · exact Except.noConfusion hok
    simp only [Except.ok.injEq] at hok
    subst hok
    rfl
  · intro restaurant menu u req now a1 a2
    simp only [createOrder]
    split
    · rfl
    split
    · rfl
    split
    · rfl
    split
    · rfl
    split <;> rfl

/-- Witness for the amended C9: the scenario delivery order stores the
supplied address. -/
theorem c9_address_handling_witness :
    ((createOrder (some scenarioRestaurant) (some [scenarioMenuItem])
        ⟨10, .customer⟩ scenarioReq 1000).toOption.map (fun o => o.deliveryAddress))
      = some (some "1 Main St") := by
  cases hok : createOrder (some scenarioRestaurant) (some [scenarioMenuItem])
      ⟨10, .customer⟩ scenarioReq 1000 with
  | error e =>
      simp [createOrder, scenarioReq, scenarioRestaurant, scenarioMenuItem,
        priceLines, priceLine, resolveItemPrice, customizationTotal, jsOrNat,
        bind, Except.bind] at hok
  | ok o =>
      have h := c9_address_handling.1 (some scenarioRestaurant)
        (some [scenarioMenuItem]) ⟨10, .customer⟩ scenarioReq 1000 o hok
      simp [Except.toOption, h, scenarioReq]

/-- The legal-transition table exactly as the claim lists it (with empty
rows for the three terminal statuses). -/
def claimAllowedTransition : OrderStatus → OrderStatus → Bool
  | .pending, .confirmed | .pending, .cancelled => true
  | .confirmed, .preparing | .confirmed, .cancelled => true
  | .preparing, .ready_for_pickup | .preparing, .cancelled => true
  | .ready_for_pickup, .out_for_delivery => true
  | .ready_for_pickup, .delivered | .ready_for_pickup, .cancelled => true
  | .out_for_delivery, .delivered | .out_for_delivery, .cancelled => true
  | _, _ => false

/-- C4 counterexample: the route's transition table has no `refunded` key,
so an authorized status-update request on a `refunded` order hits the
catch-all server error (the source throws reading `undefined.includes`),
not the claimed `IllegalTransition` naming source and target. -/
theorem c4_counterexample :
    handleStatusUpdate { sampleOrder with status := .refunded } ⟨99, .admin⟩
        .cancelled {} 2000
      = (.serverError, { sampleOrder with status := .refunded }) := rfl

/-- C4 amended: for an authorized actor the transition succeeds exactly
when (source, target) is in the claimed table; an authorized attempt
outside the table fails with `IllegalTransition` naming source and target
and leaves the order unchanged — except that a `refunded` source, whose
key is absent from the table, fails with a generic server error (order
still unchanged); `delivered → preparing` never succeeds for any actor. -/
theorem c4_transition_authority (o : OrderState) (u : UserCtx)
    (tgt : OrderStatus) (body : StatusUpdateBody) (now : Nat)
    (hauth : statusUpdateAuthorized o u tgt = true) :
    (o.status ≠ .refunded →
      (((handleStatusUpdate o u tgt body now).1 = .ok
          ↔ claimAllowedTransition o.status tgt = true) ∧
       (claimAllowedTransition o.status tgt = false →
         handleStatusUpdate o u tgt body now = (.illegalTransition o.status tgt, o)))) ∧
    (o.status = .refunded →
      handleStatusUpdate o u tgt body now = (.serverError, o)) ∧
    (∀ (o' : OrderState) (u' : UserCtx) (body' : StatusUpdateBody) (now' : Nat),
      o'.status = .delivered →
      (handleStatusUpdate o' u' .preparing body' now').1 ≠ .ok) := by
  have htgt : tgt ≠ .refunded := by
    intro h
    subst h
    simp [statusUpdateAuthorized] at hauth
  have htgtb : (tgt == OrderStatus.refunded) = false := by
    cases tgt <;> simp_all
  refine ⟨?_, ?_, ?_⟩
  · intro hsrc
    cases ho : o.status <;> cases tgt <;>
      simp_all [handleStatusUpdate, validTransitions, claimAllowedTransition]
  · intro hsrc
    simp [handleStatusUpdate, htgtb, hauth, hsrc, validTransitions]
  · intro o' u' body' now' hst
    simp only [handleStatusUpdate, hst, validTransitions]
    split
    · simp
    · split
      · simp
      · simp

/-- Witness for the amended C4: the restaurant owner confirming a pending
order is table-legal and succeeds. -/
theorem c4_transition_authority_witness :
    (handleStatusUpdate sampleOrder ⟨20, .restaurant_owner⟩ .confirmed {} 2000).1
      = .ok :=
  ((c4_transition_authority sampleOrder ⟨20, .restaurant_owner⟩ .confirmed {} 2000
      rfl).1 (by simp [sampleOrder])).1.mpr rfl

/-- C5: authorization is checked before state-machine legality, with the
claimed per-target actor sets: restaurant owner or admin for
`confirmed`/`preparing`/`ready_for_pickup`, the assigned driver or admin
for `out_for_delivery`/`delivered`, and the customer, restaurant owner or
admin for `cancelled`; an unauthorized request fails with `NotAuthorized`
leaving the order unchanged, and in particular a customer requesting the
table-legal `pending → confirmed` gets `NotAuthorized`. -/
theorem c5_authorization_before_legality (o : OrderState) (u : UserCtx)
    (tgt : OrderStatus) (body : StatusUpdateBody) (now : Nat)
    (htgt : tgt ≠ .refunded)
    (hauth : statusUpdateAuthorized o u tgt = false) :
    handleStatusUpdate o u tgt body now = (.notAuthorized, o) ∧
    (∀ (o2 : OrderState) (u2 : UserCtx),
      (tgt = .confirmed ∨ tgt = .preparing ∨ tgt = .ready_for_pickup) →
      statusUpdateAuthorized o2 u2 tgt
        = (o2.restaurantOwner == u2.id || u2.role == .admin)) ∧
    (∀ (o2 : OrderState) (u2 : UserCtx),
      (tgt = .out_for_delivery ∨ tgt = .delivered) →
      statusUpdateAuthorized o2 u2 tgt
        = ((match o2.deliveryDriver with
            | some d => d == u2.id
            | none => false) || u2.role == .admin)) ∧
    (∀ (o2 : OrderState) (u2 : UserCtx),
      statusUpdateAuthorized o2 u2 .cancelled
        = (o2.customer == u2.id || o2.restaurantOwner == u2.id || u2.role == .admin)) ∧
    (handleStatusUpdate sampleOrder ⟨10, .customer⟩ .confirmed {} 2000
        = (.notAuthorized, sampleOrder) ∧
      claimAllowedTransition .pending .confirmed = true) := by
  have htgtb : (tgt == OrderStatus.refunded) = false := by
    cases tgt <;> simp_all
  refine ⟨?_, ?_, ?_, ?_, rfl, rfl⟩
  · simp [handleStatusUpdate, htgtb, hauth]
  · intro o2 u2 h
    rcases h with h | h | h <;> subst h <;> rfl
  · intro o2 u2 h
    rcases h with h | h <;> subst h <;> rfl
  · intro o2 u2
    rfl

/-- Witness for C5: the customer requesting `pending → confirmed` on the
sample order is refused with `NotAuthorized`. -/
theorem c5_authorization_before_legality_witness :
    handleStatusUpdate sampleOrder ⟨10, .customer⟩ .confirmed {} 2000
      = (.notAuthorized, sampleOrder) :=
  (c5_authorization_before_legality sampleOrder ⟨10, .customer⟩ .confirmed {} 2000
    (by decide) rfl).1

/-- C10: both cancellation paths write the requesting actor's role string
verbatim into `tracking.cancelled.cancelledBy`, and the schema enum
{customer, restaurant, admin, system} accepts the written value for the
`customer` and `admin` roles but rejects it for `restaurant_owner` and
`delivery_driver` — a cancellation by those actors cannot persist a valid
`cancelledBy`. -/
theorem c10_cancelledBy_enum_mismatch :
    (∀ (o : OrderState) (u : UserCtx) (body : StatusUpdateBody) (now : Nat),
      (handleStatusUpdate o u .cancelled body now).1 = .ok →
      ((handleStatusUpdate o u .cancelled body now).2).tracking.cancelled
        = some ⟨now, body.reason, some (roleString u.role)⟩) ∧
    (∀ (o : OrderState) (u : UserCtx) (reason : Option String) (now : Nat),
      (handleCancelOrder o u reason now).1 = .ok →
      ((handleCancelOrder o u reason now).2).tracking.cancelled
        = some ⟨now, some (jsOrStr reason "No reason provided"),
                some (roleString u.role)⟩) ∧
    (validCancelledBy (roleString .customer) = true ∧
     validCancelledBy (roleString .admin) = true ∧
     validCancelledBy (roleString .restaurant_owner) = false ∧
     validCancelledBy (roleString .delivery_driver) = false) := by
  refine ⟨?_, ?_, rfl, rfl, rfl, rfl⟩
  · intro o u body now h
    by_cases hsa : statusUpdateAuthorized o u .cancelled = true
    · cases hvt : validTransitions o.status with
      | none => simp [handleStatusUpdate, hsa, hvt] at h
      | some ts =>
          by_cases hmem : OrderStatus.cancelled ∈ ts
          · simp [handleStatusUpdate, hsa, hvt, hmem, updateStatus]
          · simp [handleStatusUpdate, hsa, hvt, hmem] at h
    · simp [handleStatusUpdate, hsa] at h
  · intro o u reason now h
    by_cases ha : (o.customer == u.id || o.restaurantOwner == u.id
        || u.role == .admin) = true
    · by_cases hc : canBeCancelled o = true
      · simp [handleCancelOrder, ha, hc, updateStatus]
      · simp [handleCancelOrder, ha, hc] at h
    · simp [handleCancelOrder, ha] at h

/-- Witness for C10: the restaurant owner cancelling the pending sample
order persists `cancelledBy = "restaurant_owner"`, which the schema enum
rejects. -/
theorem c10_cancelledBy_enum_mismatch_witness :
    ((handleCancelOrder sampleOrder ⟨20, .restaurant_owner⟩ none 2000).2).tracking.cancelled
        = some ⟨2000, some "No reason provided", some "restaurant_owner"⟩ ∧
      validCancelledBy "restaurant_owner" = false :=
  ⟨c10_cancelledBy_enum_mismatch.2.1 sampleOrder ⟨20, .restaurant_owner⟩ none 2000 rfl,
   rfl⟩

/-- C2 counterexample: confirming a succeeded intent for an order that is
already `delivered` does not keep its status — the confirm route calls
`updateStatus('confirmed')` unconditionally, so the order is dragged back
to `confirmed`, contradicting the claimed pending-only auto-transition. -/
theorem c2_counterexample :
    (((confirmPayment (.ok (some .succeeded))
          (some { sampleOrder with status := .delivered })
          ⟨10, .customer⟩ "pi_1" 3000).2).map (fun o => o.status)) = some .confirmed ∧
      ({ sampleOrder with status := .delivered } : OrderState).status = .delivered :=
  ⟨rfl, rfl⟩

/-- C2 amended: on gateway status `succeeded` the confirm route marks the
payment completed, stamps `paidAt`, and unconditionally transitions the
order to `confirmed` whatever its current status; `requires_action` maps
to payment `processing` and `payment_failed` to `failed`, both leaving the
order status alone; the pending-only guard exists only in the webhook
handler's `payment_intent.succeeded` path. -/
theorem c2_confirm_mapping (o : OrderState) (u : UserCtx) (intentId : String)
    (now : Nat) (hcust : o.customer = u.id) :
    (((confirmPayment (.ok (some .succeeded)) (some o) u intentId now).2).map
        (fun o' => (o'.payment.status, o'.payment.paidAt, o'.status))
      = some (.completed, some now, .confirmed)) ∧
    (((confirmPayment (.ok (some .requires_action)) (some o) u intentId now).2).map
        (fun o' => (o'.payment.status, o'.status))
      = some (.processing, o.status)) ∧
    (((confirmPayment (.ok (some .payment_failed)) (some o) u intentId now).2).map
        (fun o' => (o'.payment.status, o'.status))
      = some (.failed, o.status)) ∧
    (∀ (o2 : OrderState) (iid : String) (t : Nat), o2.status ≠ .pending →
      (applyPaymentSucceededEvent o2 iid t).status = o2.status ∧
      (applyPaymentSucceededEvent o2 iid t).payment.status = .completed) ∧
    (∀ (o2 : OrderState) (iid : String) (t : Nat), o2.status = .pending →
      (applyPaymentSucceededEvent o2 iid t).status = .confirmed) := by
  have hb : (o.customer != u.id) = false := by simp [hcust]
  refine ⟨?_, ?_, ?_, ?_, ?_⟩
  · simp [confirmPayment, hb, updateStatus]
  · simp [confirmPayment, hb]
  · simp [confirmPayment, hb]
  · intro o2 iid t h
    simp [applyPaymentSucceededEvent, h]
  · intro o2 iid t h
    simp [applyPaymentSucceededEvent, h, updateStatus]

/-- Witness for the amended C2 at the delivered sample order. -/
theorem c2_confirm_mapping_witness :
    (((confirmPayment (.ok (some .succeeded))
          (some { sampleOrder with status := .delivered })
          ⟨10, .customer⟩ "pi_1" 3000).2).map
        (fun o' => (o'.payment.status, o'.payment.paidAt, o'.status)))
      = some (.completed, some 3000, .confirmed) :=
  (c2_confirm_mapping { sampleOrder with status := .delivered }
    ⟨10, .customer⟩ "pi_1" 3000 rfl).1

/-- C6: payment-success reconciliation is idempotent on an order already
`confirmed` with payment `completed`: replaying the webhook succeeded
event keeps payment `completed` and status `confirmed`, a repeated
confirm call succeeds with the same end state, and the spec's scenario
(pending order: first event confirms it, replay changes nothing) holds. -/
theorem c6_payment_success_idempotent (o : OrderState) (u : UserCtx)
    (intentId : String) (now : Nat)
    (hpay : o.payment.status = .completed) (hst : o.status = .confirmed)
    (hcust : o.customer = u.id) :
    ((applyPaymentSucceededEvent o intentId now).payment.status = .completed ∧
     (applyPaymentSucceededEvent o intentId now).status = .confirmed) ∧
    ((confirmPayment (.ok (some .succeeded)) (some o) u intentId now).1
      = .ok .completed .confirmed) ∧
    ((applyPaymentSucceededEvent sampleOrder "pi_1" 2000).payment.status
        = .completed ∧
     (applyPaymentSucceededEvent sampleOrder "pi_1" 2000).status = .confirmed ∧
     (applyPaymentSucceededEvent
         (applyPaymentSucceededEvent sampleOrder "pi_1" 2000) "pi_1" 3000).payment.status
        = .completed ∧
     (applyPaymentSucceededEvent
         (applyPaymentSucceededEvent sampleOrder "pi_1" 2000) "pi_1" 3000).status
        = .confirmed) := by
  have hb : (o.customer != u.id) = false := by simp [hcust]
  refine ⟨?_, ?_, rfl, rfl, rfl, rfl⟩
  · constructor
    · simp [applyPaymentSucceededEvent, hst]
    · simp [applyPaymentSucceededEvent, hst]
  · simp [confirmPayment, hb, updateStatus]

/-- Witness for C6 at a confirmed, paid sample order. -/
theorem c6_payment_success_idempotent_witness :
    (applyPaymentSucceededEvent
        { sampleOrder with
          status := .confirmed
          payment := { sampleOrder.payment with status := .completed } }
        "pi_1" 3000).status = .confirmed ∧
      (confirmPayment (.ok (some .succeeded))
          (some { sampleOrder with
            status := .confirmed
            payment := { sampleOrder.payment with status := .completed } })
          ⟨10, .customer⟩ "pi_1" 3000).1 = .ok .completed .confirmed :=
  ⟨(c6_payment_success_idempotent
      { sampleOrder with
        status := .confirmed
        payment := { sampleOrder.payment with status := .completed } }
      ⟨10, .customer⟩ "pi_1" 3000 rfl rfl rfl).1.2,
   (c6_payment_success_idempotent
      { sampleOrder with
        status := .confirmed
        payment := { sampleOrder.payment with status := .completed } }
      ⟨10, .customer⟩ "pi_1" 3000 rfl rfl rfl).2.1⟩

/-- A delivered order with a completed card payment and recorded intent. -/
def c3Order : OrderState :=
  { sampleOrder with
    status := .delivered
    payment := { sampleOrder.payment with status := .completed } }

/-- C3 counterexample: a full refund of the delivered $63.00 order succeeds
and drives the order to `refunded`, but the tracking sub-record is left
completely unchanged — the supplied reason and the actor's role are
nowhere recorded, contradicting the claim. -/
theorem c3_counterexample :
    (processRefund c3Order ⟨10, .customer⟩ none (some "damaged")
        (.ok "re_1") 3000).1 = .ok "re_1" 6300 ∧
      ((processRefund c3Order ⟨10, .customer⟩ none (some "damaged")
          (.ok "re_1") 3000).2).status = .refunded ∧
      ((processRefund c3Order ⟨10, .customer⟩ none (some "damaged")
          (.ok "re_1") 3000).2).tracking = c3Order.tracking := by
  refine ⟨?_, rfl, rfl⟩
  simp only [processRefund, refundCents, c3Order, sampleOrder]
  norm_num [round_eq]

/-- C3 amended: a refund on a completed payment with a recorded intent
refunds the caller's (nonzero) amount, falling back to the full
`pricing.total` when no amount is given — or when the amount is zero,
which JavaScript's truthiness test treats like a missing one; it marks
the payment refunded with `refundedAt` and `refundAmount` (the cents
divided by 100) stamped, and drives the order to terminal `refunded` from
any order status including `delivered` — but the reason and the actor's
role, though passed to the transition, are not recorded: `updateStatus`
has no `refunded` branch, so the tracking sub-record is left unchanged. -/
theorem c3_refund_behaviour (o : OrderState) (u : UserCtx) (amount : Option ℚ)
    (reason : Option String) (refundId : String) (now : Nat)
    (hauth : (o.customer == u.id || o.restaurantOwner == u.id
      || u.role == .admin) = true)
    (hpay : o.payment.status = .completed)
    (hintent : o.payment.stripePaymentIntentId ≠ none) :
    (processRefund o u amount reason (.ok refundId) now).1
        = .ok refundId (refundCents o amount) ∧
      (amount = none → refundCents o amount = round (o.pricing.total * 100)) ∧
      (∀ a : ℚ, amount = some a → a ≠ 0 → refundCents o amount = round (a * 100)) ∧
      (amount = some 0 → refundCents o amount = round (o.pricing.total * 100)) ∧
      ((processRefund o u amount reason (.ok refundId) now).2).payment.status
        = .refunded ∧
      ((processRefund o u amount reason (.ok refundId) now).2).payment.refundedAt
        = some now ∧
      ((processRefund o u amount reason (.ok refundId) now).2).payment.refundAmount
        = some ((refundCents o amount : ℚ) / 100) ∧
      ((processRefund o u amount reason (.ok refundId) now).2).status = .refunded ∧
      ((processRefund o u amount reason (.ok refundId) now).2).tracking
        = o.tracking := by
  have h1 : (o.payment.status != PaymentStatus.completed) = false := by simp [hpay]
  have h2 : (o.payment.stripePaymentIntentId == none) = false := by
    cases h : o.payment.stripePaymentIntentId <;> simp_all
  refine ⟨?_, ?_, ?_, ?_, ?_, ?_, ?_, ?_, ?_⟩
  · simp [processRefund, hauth, h1, h2]
  · intro h
    subst h
    rfl
  · intro a ha h0
    subst ha
    simp [refundCents, h0]
  · intro h
    subst h
    simp [refundCents]
  · simp [processRefund, hauth, h1, h2, updateStatus]
  · simp [processRefund, hauth, h1, h2, updateStatus]
  · simp [processRefund, hauth, h1, h2, updateStatus]
  · simp [processRefund, hauth, h1, h2, updateStatus]
  · simp [processRefund, hauth, h1, h2, updateStatus]

/-- Witness for the amended C3 at the delivered order: with no amount, and
with the falsy amount 0, the full total is refunded; the refund amount is
stamped and the tracking sub-record is unchanged. -/
theorem c3_refund_behaviour_witness :
    ((processRefund c3Order ⟨10, .customer⟩ none (some "damaged")
        (.ok "re_1") 3000).2).status = .refunded ∧
      ((processRefund c3Order ⟨10, .customer⟩ none (some "damaged")
          (.ok "re_1") 3000).2).tracking = c3Order.tracking ∧
      ((processRefund c3Order ⟨10, .customer⟩ none (some "damaged")
          (.ok "re_1") 3000).2).payment.refundAmount
        = some ((refundCents c3Order none : ℚ) / 100) ∧
      refundCents c3Order none = round (c3Order.pricing.total * 100) ∧
      refundCents c3Order (some 0) = round (c3Order.pricing.total * 100) :=
  ⟨(c3_refund_behaviour c3Order ⟨10, .customer⟩ none (some "damaged") "re_1" 3000
      rfl rfl (by simp [c3Order, sampleOrder])).2.2.2.2.2.2.2.1,
   (c3_refund_behaviour c3Order ⟨10, .customer⟩ none (some "damaged") "re_1" 3000
      rfl rfl (by simp [c3Order, sampleOrder])).2.2.2.2.2.2.2.2,
   (c3_refund_behaviour c3Order ⟨10, .customer⟩ none (some "damaged") "re_1" 3000
      rfl rfl (by simp [c3Order, sampleOrder])).2.2.2.2.2.2.1,
   (c3_refund_behaviour c3Order ⟨10, .customer⟩ none (some "damaged") "re_1" 3000
      rfl rfl (by simp [c3Order, sampleOrder])).2.1 rfl,
   (c3_refund_behaviour c3Order ⟨10, .customer⟩ (some 0) (some "damaged") "re_1" 3000
      rfl rfl (by simp [c3Order, sampleOrder])).2.2.2.1 rfl⟩

/-- C7: when the external gateway call fails, each of the three payment
operations surfaces the gateway error and leaves the order exactly as
loaded — the gateway call precedes every local write, so no field of the
order is mutated. -/
theorem c7_gateway_failure_no_mutation (o : OrderState) (u : UserCtx)
    (found : Option OrderState) (intentId : String) (amount : Option ℚ)
    (reason : Option String) (now : Nat) :
    ((createPaymentIntent o u (.error ())).2 = o ∧
     (o.customer = u.id → o.status = .pending → o.payment.status ≠ .completed →
       (createPaymentIntent o u (.error ())).1 = .gatewayError)) ∧
    confirmPayment (.error ()) found u intentId now = (.gatewayError, found) ∧
    ((processRefund o u amount reason (.error ()) now).2 = o ∧
     ((o.customer == u.id || o.restaurantOwner == u.id || u.role == .admin) = true →
       o.payment.status = .completed → o.payment.stripePaymentIntentId ≠ none →
       (processRefund o u amount reason (.error ()) now).1 = .gatewayError)) := by
  refine ⟨⟨?_, ?_⟩, rfl, ?_, ?_⟩
  · simp only [createPaymentIntent]
    split
    · rfl
    · split
      · rfl
      · split
        · rfl
        · rfl
  · intro h1 h2 h3
    have b1 : (o.customer != u.id) = false := by simp [h1]
    have b2 : (o.status != OrderStatus.pending) = false := by simp [h2]
    have b3 : (o.payment.status == PaymentStatus.completed) = false := by
      cases h : o.payment.status <;> simp_all
    simp [createPaymentIntent, b1, b2, b3]
  · simp only [processRefund]
    split
    · rfl
    · split
      · rfl
      · split
        · rfl
        · rfl
  · intro h1 h2 h3
    have b2 : (o.payment.status != PaymentStatus.completed) = false := by simp [h2]
    have b3 : (o.payment.stripePaymentIntentId == none) = false := by
      cases h : o.payment.stripePaymentIntentId <;> simp_all
    simp [processRefund, h1, b2, b3]

/-- Witness for C7 at the pending sample order. -/
theorem c7_gateway_failure_no_mutation_witness :
    (createPaymentIntent sampleOrder ⟨10, .customer⟩ (.error ())).1 = .gatewayError ∧
      (createPaymentIntent sampleOrder ⟨10, .customer⟩ (.error ())).2 = sampleOrder :=
  ⟨(c7_gateway_failure_no_mutation sampleOrder ⟨10, .customer⟩ none "pi_1"
      none none 0).1.2 rfl rfl (by simp [sampleOrder]),
   (c7_gateway_failure_no_mutation sampleOrder ⟨10, .customer⟩ none "pi_1"
      none none 0).1.1⟩

end FoodDelivery
